import Mathlib

/-!
Shallow embedding of the per-window swapchain lifecycle of `bevy_vulkano`
(`src/vulkano_window.rs`, `struct VulkanoWinitWindow`).

Modelling choices:
* GPU handles are abstract: a queue (and its device) is a `Nat`, a swapchain
  handle is a `Nat`, an image format is a `Nat`, pixel dimensions `[u32; 2]`
  are a pair of naturals (width, height).  Arithmetic overflow plays no role
  in the modelled code.
* An image view (`FinalImageView` / `DeviceImageView` in the source, both
  `Arc<ImageView<...>>`) is modelled by its observable data: dimensions and
  format.
* The platform (vulkano / the Vulkan driver) is an oracle: each call to
  `swapchain::acquire_next_image`, to `Swapchain::recreate().build()` and to
  `then_signal_fence_and_flush()` is modelled by an explicit oracle-result
  argument of the corresponding step function.
* Rust panics (`unwrap`, `panic!`-arms) are modelled by `Option`/the `panic`
  constructor of the result type: `none`/`.panic` means process abort.
* The `HashMap<usize, (DeviceImageView, bool)>` field `image_views` is
  modelled as an association list with the map semantics of `insert`
  (overwrite), `remove` and `get`.
-/

/-- Pixel dimensions `[u32; 2]`, as (width, height). -/
abbrev Dims := Nat × Nat

/-- An abstract `vulkano::format::Format`. -/
abbrev Format := Nat

/-- Observable data of an image view: its dimensions and its format.
Used for both `FinalImageView` (swapchain image views) and
`DeviceImageView` (auxiliary render-target views) of the source. -/
structure ImageViewData where
  size : Dims
  format : Format
deriving DecidableEq

/-- Swapchain image view, `type FinalImageView` in the source. -/
abbrev FinalImageView := ImageViewData

/-- Auxiliary render-target image view, `type DeviceImageView` in the source. -/
abbrev DeviceImageView := ImageViewData

/-- Abstract syntax of the boxed `dyn GpuFuture` values the modelled code
builds: `sync::now(device)`, the future returned by
`swapchain::acquire_next_image`, `a.join(b)`, and the fence-and-flush future
obtained from `then_swapchain_present(..).then_signal_fence_and_flush()`. -/
inductive GpuFuture where
  | now (device : Nat)
  | acquire (image_num : Nat)
  | join (a b : GpuFuture)
  | presentFence (after : GpuFuture) (image_index : Nat)
deriving DecidableEq

/-- State of `struct VulkanoWinitWindow` (the fields the claims are about;
the winit `surface` handle and the optional `gui` field carry no modelled
state). `graphics_queue` stands for the queue handle, and
`graphics_queue.device()` is identified with the queue handle itself. -/
structure VulkanoWinitWindow where
  graphics_queue : Nat
  swap_chain : Nat
  final_views : List FinalImageView
  image_views : List (Nat × DeviceImageView × Bool)
  recreate_swapchain : Bool
  previous_frame_end : Option GpuFuture
  image_index : Nat
deriving DecidableEq

/-- Association-list lookup with `HashMap::get` semantics. -/
def lookupKV {α : Type} : List (Nat × α) → Nat → Option α
  | [], _ => none
  | (k, v) :: rest, key => if k = key then some v else lookupKV rest key

/-- Association-list removal with `HashMap::remove` semantics. -/
def removeKV {α : Type} : List (Nat × α) → Nat → List (Nat × α)
  | [], _ => []
  | (k, v) :: rest, key =>
    if k = key then removeKV rest key else (k, v) :: removeKV rest key

/-- Association-list insertion with `HashMap::insert` semantics
(overwrites any existing binding of the key). -/
def insertKV {α : Type} (m : List (Nat × α)) (key : Nat) (v : α) :
    List (Nat × α) :=
  (key, v) :: removeKV m key

/-- Modelled from the spec: `create_device_image` is exported from the crate
root, whose module is not under `src/`; per spec §3/§4.2 an auxiliary target
is a GPU image created on the given queue with the given dimensions and
format. -/
def create_device_image (_graphics_queue : Nat) (size : Dims)
    (format : Format) : DeviceImageView :=
  { size := size, format := format }

/-- `VulkanoWinitWindow::new` (source lines 44-80): fresh session with an
empty auxiliary-target map, `recreate_swapchain = false`,
`previous_frame_end = Some(sync::now(device))` and `image_index = 0`.
Surface/swapchain creation itself happens in the (external) context. -/
def VulkanoWinitWindow.new (graphics_queue : Nat) (swap_chain : Nat)
    (final_views : List FinalImageView) : VulkanoWinitWindow :=
  { graphics_queue := graphics_queue
    swap_chain := swap_chain
    final_views := final_views
    image_views := []
    recreate_swapchain := false
    previous_frame_end := some (GpuFuture.now graphics_queue)
    image_index := 0 }

/-- `final_image_size` (source line 118): `final_views[0].image().dimensions()`.
Indexing `[0]` panics on an empty sequence, hence `Option`. -/
def final_image_size? (w : VulkanoWinitWindow) : Option Dims :=
  w.final_views.head?.map (·.size)

/-- `resize` (source lines 143-145): sets `recreate_swapchain` only. -/
def resize (w : VulkanoWinitWindow) : VulkanoWinitWindow :=
  { w with recreate_swapchain := true }

/-- `add_image_target` (source lines 149-157): without an explicit size the
current final-image size is used (panicking if there is none) and the target
is marked as following the swapchain (`view_size.is_none()`). `none` models
the panic. -/
def add_image_target (w : VulkanoWinitWindow) (key : Nat)
    (view_size : Option Dims) (format : Format) : Option VulkanoWinitWindow := do
  let size ← match view_size with
    | some s => pure s
    | none => final_image_size? w
  let image := create_device_image w.graphics_queue size format
  pure { w with image_views := insertKV w.image_views key (image, view_size.isNone) }

/-- `get_image_target` (source lines 160-162) before its `unwrap()`:
`image_views.get(&key)`, projected to the image. -/
def get_image_target? (w : VulkanoWinitWindow) (key : Nat) :
    Option DeviceImageView :=
  (lookupKV w.image_views key).map (·.1)

/-- `has_image_target` (source lines 165-167). -/
def has_image_target (w : VulkanoWinitWindow) (key : Nat) : Bool :=
  (lookupKV w.image_views key).isSome

/-- `remove_image_target` (source lines 169-171). -/
def remove_image_target (w : VulkanoWinitWindow) (key : Nat) :
    VulkanoWinitWindow :=
  { w with image_views := removeKV w.image_views key }

/-- Oracle outcome of `self.swap_chain.recreate().dimensions(dims).build()`:
success carries the new swapchain handle and the new swapchain image views
(`ImageView::new(image)` applied to each returned image). -/
inductive SwapchainBuildResult where
  | ok (new_swapchain : Nat) (new_images : List FinalImageView)
  | unsupportedDimensions
  | otherError
deriving DecidableEq

/-- Body of the per-key loop of `recreate_swapchain_and_views`
(source lines 271-275): read the target's format (`get_image_target(i)`
panics if absent), remove it, and re-add it with no explicit size. -/
def recreateStep (acc : VulkanoWinitWindow) (i : Nat) :
    Option VulkanoWinitWindow := do
  let img ← get_image_target? acc i
  let acc := remove_image_target acc i
  add_image_target acc i none img.format

/-- `recreate_swapchain_and_views` (source lines 243-277):
`UnsupportedDimensions` is logged and the function returns with the state
(including `recreate_swapchain`) untouched; any other build error panics
(`none`). On success the swapchain and the image-view sequence are replaced,
every auxiliary target flagged as following the swapchain is recreated at
the new size with its original format, and `recreate_swapchain` is cleared. -/
def recreate_swapchain_and_views (w : VulkanoWinitWindow)
    (build : SwapchainBuildResult) : Option VulkanoWinitWindow :=
  match build with
  | .unsupportedDimensions => some w
  | .otherError => none
  | .ok new_swapchain new_images =>
    let w1 := { w with swap_chain := new_swapchain, final_views := new_images }
    let resizable_views := (w1.image_views.filter (fun c => c.2.2)).map (·.1)
    (resizable_views.foldlM recreateStep w1).map
      (fun w2 => { w2 with recreate_swapchain := false })

/-- Oracle outcome of `swapchain::acquire_next_image`. -/
inductive AcquireResult where
  | ok (image_num : Nat) (suboptimal : Bool)
  | outOfDate
  | otherError
deriving DecidableEq

/-- The only `AcquireError` value `start_frame` ever returns to the caller. -/
inductive AcquireError where
  | outOfDate
deriving DecidableEq

/-- Result of one `start_frame` call: `Ok(future)` or `Err(AcquireError)`
together with the updated session state, or a process abort. -/
inductive StartFrameResult where
  | ok (w : VulkanoWinitWindow) (future : GpuFuture)
  | err (w : VulkanoWinitWindow) (e : AcquireError)
  | panic
deriving DecidableEq

/-- `start_frame` (source lines 182-208). The `build` oracle is consulted
only when `recreate_swapchain` is set; the `acq` oracle is the outcome of
`acquire_next_image`. The `take().unwrap()` of `previous_frame_end` panics
when the future is absent. -/
def start_frame (w : VulkanoWinitWindow) (build : SwapchainBuildResult)
    (acq : AcquireResult) : StartFrameResult :=
  match (if w.recreate_swapchain then recreate_swapchain_and_views w build
         else some w) with
  | none => .panic
  | some w1 =>
    match acq with
    | .outOfDate => .err { w1 with recreate_swapchain := true } .outOfDate
    | .otherError => .panic
    | .ok image_num suboptimal =>
      let w2 := if suboptimal then { w1 with recreate_swapchain := true } else w1
      let w3 := { w2 with image_index := image_num }
      match w3.previous_frame_end with
      | none => .panic
      | some prev =>
        .ok { w3 with previous_frame_end := none }
          (GpuFuture.join prev (GpuFuture.acquire image_num))

/-- Oracle outcome of `then_signal_fence_and_flush()` in `finish_frame`. -/
inductive FlushResult where
  | ok
  | outOfDate
  | otherError
deriving DecidableEq

/-- `finish_frame` (source lines 211-240): on success the fence future is
stored; on `FlushError::OutOfDate` the recreate flag is set and a fresh
`sync::now(device)` future is stored; any other flush error is logged and a
fresh `sync::now(device)` future is stored. The function never returns an
error. -/
def finish_frame (w : VulkanoWinitWindow) (after_future : GpuFuture)
    (flush : FlushResult) : VulkanoWinitWindow :=
  match flush with
  | .ok =>
    let stored := GpuFuture.presentFence after_future w.image_index
    { w with previous_frame_end := some stored }
  | .outOfDate =>
    { w with recreate_swapchain := true,
             previous_frame_end := some (GpuFuture.now w.graphics_queue) }
  | .otherError =>
    { w with previous_frame_end := some (GpuFuture.now w.graphics_queue) }

/-- One caller-visible step of the frame loop: a `start_frame` call (with
its platform-oracle outcomes) or a `finish_frame` call. -/
inductive FrameEvent where
  | start (build : SwapchainBuildResult) (acq : AcquireResult)
  | finish (after_future : GpuFuture) (flush : FlushResult)

/-- Run a sequence of frame-loop calls; `none` once any call panics.
For `start_frame`, both the `Ok` and the `Err(OutOfDate)` outcome leave the
session usable and the run continues with the updated state. -/
def runEvents : VulkanoWinitWindow → List FrameEvent → Option VulkanoWinitWindow
  | w, [] => some w
  | w, FrameEvent.start b a :: rest =>
    match start_frame w b a with
    | .ok w' _ => runEvents w' rest
    | .err w' _ => runEvents w' rest
    | .panic => none
  | w, FrameEvent.finish f fl :: rest => runEvents (finish_frame w f fl) rest

/-- Frame-loop calls that trigger no swapchain recreation: every acquisition
succeeds non-suboptimally with a platform-valid image index (below the
image count `L`, as the Vulkan contract guarantees), and no flush reports
out-of-date. -/
def goodEvent (L : Nat) : FrameEvent → Bool
  | .start _ (AcquireResult.ok i sub) => decide (i < L) && !sub
  | .start _ _ => false
  | .finish _ fl => decide (fl ≠ FlushResult.outOfDate)

/-! ## Helper lemmas about the association-list map operations -/

theorem lookupKV_removeKV {α : Type} (m : List (Nat × α)) (k k' : Nat) :
    lookupKV (removeKV m k) k' = if k = k' then none else lookupKV m k' := by
  induction m with
  | nil => simp [removeKV, lookupKV]
  | cons a rest ih =>
    obtain ⟨ka, va⟩ := a
    simp only [removeKV]
    by_cases hak : ka = k
    · rw [if_pos hak, ih]
      by_cases hkk : k = k'
      · simp [hkk]
      · have hka' : ka ≠ k' := by rw [hak]; exact hkk
        simp [lookupKV, hkk, hka']
    · rw [if_neg hak]
      by_cases hak' : ka = k'
      · have hkk : k ≠ k' := fun h => hak (hak'.trans h.symm)
        simp [lookupKV, hak', hkk]
      · simp [lookupKV, hak', ih]

theorem lookupKV_insertKV_self {α : Type} (m : List (Nat × α)) (k : Nat)
    (v : α) : lookupKV (insertKV m k v) k = some v := by
  simp [insertKV, lookupKV]

theorem lookupKV_insertKV_ne {α : Type} (m : List (Nat × α)) (k k' : Nat)
    (v : α) (h : k ≠ k') : lookupKV (insertKV m k v) k' = lookupKV m k' := by
  simp [insertKV, lookupKV, h, lookupKV_removeKV]

theorem lookupKV_isSome_of_mem_keys {α : Type} (m : List (Nat × α)) (k : Nat)
    (h : k ∈ m.map Prod.fst) : (lookupKV m k).isSome := by
  induction m with
  | nil => simp at h
  | cons a rest ih =>
    obtain ⟨ka, va⟩ := a
    by_cases hak : ka = k
    · simp [lookupKV, hak]
    · simp only [List.map_cons, List.mem_cons] at h
      rcases h with h | h
    
      · exact absurd h.symm hak
      · simp [lookupKV, hak, ih h]

theorem mem_follow_keys_of_lookupKV {α : Type} (m : List (Nat × α × Bool))
    (k : Nat) (img : α) (h : lookupKV m k = some (img, true)) :
    k ∈ (m.filter (fun c => c.2.2)).map Prod.fst := by
  induction m with
  | nil => simp [lookupKV] at h
  | cons a rest ih =>
    obtain ⟨ka, va, ba⟩ := a
    by_cases hak : ka = k
    · subst hak
      rw [lookupKV, if_pos rfl] at h
      have hb : ba = true := by
        have hpair : (va, ba) = (img, true) := Option.some.inj h
        exact congrArg Prod.snd hpair
      subst hb
      rw [List.filter_cons_of_pos (by rfl)]
      simp
    · rw [lookupKV, if_neg hak] at h
      have hmem := ih h
      by_cases hba : ba = true
      · subst hba
        rw [List.filter_cons_of_pos (by rfl)]
        simp only [List.map_cons, List.mem_cons]
        exact Or.inr hmem
      · simp only [Bool.not_eq_true] at hba
        subst hba
        rw [List.filter_cons_of_neg (by simp)]
        exact hmem

theorem mem_keys_of_mem_follow_keys {α : Type} (m : List (Nat × α × Bool))
    (k : Nat) (h : k ∈ (m.filter (fun c => c.2.2)).map Prod.fst) :
    k ∈ m.map Prod.fst := by
  simp only [List.mem_map] at h ⊢
  obtain ⟨c, hc, hck⟩ := h
  exact ⟨c, List.mem_of_mem_filter hc, hck⟩

theorem not_mem_follow_keys_of_lookupKV_false {α : Type}
    (m : List (Nat × α × Bool)) (k : Nat) (img : α)
    (hnd : (m.map Prod.fst).Nodup) (h : lookupKV m k = some (img, false)) :
    k ∉ (m.filter (fun c => c.2.2)).map Prod.fst := by
  induction m with
  | nil => simp [lookupKV] at h
  | cons a rest ih =>
    obtain ⟨ka, va, ba⟩ := a
    simp only [List.map_cons, List.nodup_cons] at hnd
    by_cases hak : ka = k
    · subst hak
      rw [lookupKV, if_pos rfl] at h
      have hb : ba = false := by
        have hpair : (va, ba) = (img, false) := Option.some.inj h
        exact congrArg Prod.snd hpair
      subst hb
      rw [List.filter_cons_of_neg (by simp)]
      intro hmem
      exact hnd.1 (mem_keys_of_mem_follow_keys rest ka hmem)
    · rw [lookupKV, if_neg hak] at h
      have hnot := ih hnd.2 h
      intro hmem
      by_cases hba : ba = true
      · subst hba
        rw [List.filter_cons_of_pos (by rfl)] at hmem
        simp only [List.map_cons, List.mem_cons] at hmem
        rcases hmem with hmem | hmem
        · exact hak hmem.symm
        · exact hnot hmem
      · simp only [Bool.not_eq_true] at hba
        subst hba
        rw [List.filter_cons_of_neg (by simp)] at hmem
        exact hnot hmem

theorem nodup_follow_keys {α : Type} (m : List (Nat × α × Bool))
    (hnd : (m.map Prod.fst).Nodup) :
    ((m.filter (fun c => c.2.2)).map Prod.fst).Nodup :=
  ((m.filter_sublist).map Prod.fst).nodup hnd

/-! ## Properties of the recreation loop -/

theorem recreateStep_eq_general (acc : VulkanoWinitWindow) (i : Nat) :
    recreateStep acc i = (lookupKV acc.image_views i).bind (fun p => (final_image_size? acc).map (fun sz => { acc with image_views := insertKV (removeKV acc.image_views i) i (create_device_image acc.graphics_queue sz p.1.format, true) })) := by
  cases hl : lookupKV acc.image_views i with
  | none => simp [recreateStep, get_image_target?, hl]
  | some p =>
    cases hs : final_image_size? acc with
    | none =>
      simp only [final_image_size?] at hs
      simp [recreateStep, get_image_target?, hl, add_image_target,
        remove_image_target, final_image_size?, hs]
    | some sz =>
      simp only [final_image_size?] at hs
      simp [recreateStep, get_image_target?, hl, add_image_target,
        remove_image_target, final_image_size?, hs]

theorem recreateStep_eq (acc : VulkanoWinitWindow) (i : Nat)
    (p : DeviceImageView × Bool) (sz : Dims)
    (hsz : final_image_size? acc = some sz)
    (hp : lookupKV acc.image_views i = some p) :
    recreateStep acc i = some { acc with image_views := insertKV (removeKV acc.image_views i) i (create_device_image acc.graphics_queue sz p.1.format, true) } := by
  rw [recreateStep_eq_general, hp, hsz]
  rfl

theorem recreateStep_fields (acc acc' : VulkanoWinitWindow) (i : Nat)
    (h : recreateStep acc i = some acc') :
    acc'.graphics_queue = acc.graphics_queue ∧
    acc'.swap_chain = acc.swap_chain ∧
    acc'.final_views = acc.final_views ∧
    acc'.recreate_swapchain = acc.recreate_swapchain ∧
    acc'.previous_frame_end = acc.previous_frame_end ∧
    acc'.image_index = acc.image_index := by
  rw [recreateStep_eq_general] at h
  cases hl : lookupKV acc.image_views i with
  | none => rw [hl] at h; simp at h
  | some p =>
    rw [hl] at h
    cases hs : final_image_size? acc with
    | none => rw [hs] at h; simp at h
    | some sz =>
      rw [hs] at h
      have h2 : ({ acc with image_views := insertKV (removeKV acc.image_views i) i (create_device_image acc.graphics_queue sz p.1.format, true) } : VulkanoWinitWindow) = acc' := Option.some.inj h
      rw [← h2]
      exact ⟨rfl, rfl, rfl, rfl, rfl, rfl⟩

theorem foldlM_recreateStep_fields :
    ∀ (ks : List Nat) (acc acc' : VulkanoWinitWindow),
    ks.foldlM recreateStep acc = some acc' →
    acc'.graphics_queue = acc.graphics_queue ∧
    acc'.swap_chain = acc.swap_chain ∧
    acc'.final_views = acc.final_views ∧
    acc'.recreate_swapchain = acc.recreate_swapchain ∧
    acc'.previous_frame_end = acc.previous_frame_end ∧
    acc'.image_index = acc.image_index := by
  intro ks
  induction ks with
  | nil =>
    intro acc acc' h
    rw [List.foldlM_nil] at h
    cases h
    exact ⟨rfl, rfl, rfl, rfl, rfl, rfl⟩
  | cons i rest ih =>
    intro acc acc' h
    rw [List.foldlM_cons] at h
    cases hstep : recreateStep acc i with
    | none => rw [hstep] at h; exact Option.noConfusion h
    | some acc1 =>
      rw [hstep] at h
      have h3 : rest.foldlM recreateStep acc1 = some acc' := h
      obtain ⟨q1, s1, f1, r1, p1, i1⟩ := recreateStep_fields acc acc1 i hstep
      obtain ⟨q2, s2, f2, r2, p2, i2⟩ := ih acc1 acc' h3
      exact ⟨q2.trans q1, s2.trans s1, f2.trans f1, r2.trans r1,
        p2.trans p1, i2.trans i1⟩

theorem recreate_swapchain_and_views_ok_eq (w : VulkanoWinitWindow)
    (chain : Nat) (imgs : List FinalImageView) :
    recreate_swapchain_and_views w (.ok chain imgs) =
      (((w.image_views.filter (fun c => c.2.2)).map Prod.fst).foldlM
        recreateStep { w with swap_chain := chain, final_views := imgs }).map
        (fun w2 => { w2 with recreate_swapchain := false }) := rfl

theorem recreate_swapchain_and_views_fields (w w' : VulkanoWinitWindow)
    (b : SwapchainBuildResult)
    (h : recreate_swapchain_and_views w b = some w') :
    w'.graphics_queue = w.graphics_queue ∧
    w'.previous_frame_end = w.previous_frame_end ∧
    w'.image_index = w.image_index := by
  cases b with
  | unsupportedDimensions =>
    have hw : w = w' := Option.some.inj h
    rw [← hw]
    exact ⟨rfl, rfl, rfl⟩
  | otherError => exact Option.noConfusion h
  | ok chain imgs =>
    rw [recreate_swapchain_and_views_ok_eq] at h
    cases hf : ((w.image_views.filter (fun c => c.2.2)).map Prod.fst).foldlM
        recreateStep { w with swap_chain := chain, final_views := imgs } with
    | none => rw [hf] at h; exact Option.noConfusion h
    | some w2 =>
      rw [hf] at h
      have hw : ({ w2 with recreate_swapchain := false } :
          VulkanoWinitWindow) = w' := Option.some.inj h
      obtain ⟨q2, s2, f2, r2, p2, i2⟩ := foldlM_recreateStep_fields _ _ _ hf
      rw [← hw]
      exact ⟨q2, p2, i2⟩

theorem recreate_swapchain_and_views_ok_flag (w w' : VulkanoWinitWindow)
    (chain : Nat) (imgs : List FinalImageView)
    (h : recreate_swapchain_and_views w (.ok chain imgs) = some w') :
    w'.recreate_swapchain = false := by
  rw [recreate_swapchain_and_views_ok_eq] at h
  cases hf : ((w.image_views.filter (fun c => c.2.2)).map Prod.fst).foldlM
      recreateStep { w with swap_chain := chain, final_views := imgs } with
  | none => rw [hf] at h; exact Option.noConfusion h
  | some w2 =>
    rw [hf] at h
    have hw : ({ w2 with recreate_swapchain := false } :
        VulkanoWinitWindow) = w' := Option.some.inj h
    rw [← hw]

theorem foldlM_recreateStep_lookup (sz : Dims) :
    ∀ (ks : List Nat) (acc : VulkanoWinitWindow),
    final_image_size? acc = some sz →
    ks.Nodup →
    (∀ k ∈ ks, (lookupKV acc.image_views k).isSome = true) →
    ∃ acc', ks.foldlM recreateStep acc = some acc' ∧
      ∀ k, lookupKV acc'.image_views k =
        if k ∈ ks then (lookupKV acc.image_views k).map (fun p => (create_device_image acc.graphics_queue sz p.1.format, true)) else lookupKV acc.image_views k := by
  intro ks
  induction ks with
  | nil =>
    intro acc _ _ _
    refine ⟨acc, by rw [List.foldlM_nil]; rfl, fun k => by simp⟩
  | cons i rest ih =>
    intro acc hsz hnd hmem
    have hi : (lookupKV acc.image_views i).isSome :=
      hmem i (List.mem_cons_self i rest)
    obtain ⟨p, hp⟩ := Option.isSome_iff_exists.mp hi
    have hstep := recreateStep_eq acc i p sz hsz hp
    have hnd' := List.nodup_cons.mp hnd
    have hlook1self : lookupKV ({ acc with image_views := insertKV (removeKV acc.image_views i) i (create_device_image acc.graphics_queue sz p.1.format, true) } : VulkanoWinitWindow).image_views i = some (create_device_image acc.graphics_queue sz p.1.format, true) :=
      lookupKV_insertKV_self _ _ _
    have hlook1ne : ∀ k, i ≠ k → lookupKV ({ acc with image_views := insertKV (removeKV acc.image_views i) i (create_device_image acc.graphics_queue sz p.1.format, true) } : VulkanoWinitWindow).image_views k = lookupKV acc.image_views k := by
      intro k hne
      show lookupKV (insertKV (removeKV acc.image_views i) i _) k = _
      rw [lookupKV_insertKV_ne _ _ _ _ hne, lookupKV_removeKV, if_neg hne]
    have hsz1 : final_image_size? { acc with image_views := insertKV (removeKV acc.image_views i) i (create_device_image acc.graphics_queue sz p.1.format, true) } = some sz := hsz
    have hmem1 : ∀ k ∈ rest, (lookupKV ({ acc with image_views := insertKV (removeKV acc.image_views i) i (create_device_image acc.graphics_queue sz p.1.format, true) } : VulkanoWinitWindow).image_views k).isSome = true := by
      intro k hk
      have hne : i ≠ k := fun h => hnd'.1 (h ▸ hk)
      rw [hlook1ne k hne]
      exact hmem k (List.mem_cons_of_mem _ hk)
    obtain ⟨acc', hfold, hchar⟩ := ih _ hsz1 hnd'.2 hmem1
    have hfold' : (i :: rest).foldlM recreateStep acc = some acc' := by
      rw [List.foldlM_cons, hstep]
      exact hfold
    refine ⟨acc', hfold', ?_⟩
    intro k
    by_cases hki : k = i
    · subst hki
      have hknr : k ∉ rest := hnd'.1
      rw [hchar k, if_neg hknr, hlook1self, if_pos (List.mem_cons_self k rest),
        hp]
      rfl
    · have hik : i ≠ k := fun h => hki h.symm
      rw [hchar k]
      by_cases hkr : k ∈ rest
      · rw [if_pos hkr, if_pos (List.mem_cons_of_mem _ hkr), hlook1ne k hik]
      · rw [if_neg hkr, hlook1ne k hik,
          if_neg (by simp [hki, hkr])]

theorem recreate_swapchain_and_views_ok_spec (w : VulkanoWinitWindow)
    (chain : Nat) (i0 : FinalImageView) (imgs : List FinalImageView)
    (himgs : imgs.head? = some i0)
    (hnd : (w.image_views.map Prod.fst).Nodup) :
    ∃ w', recreate_swapchain_and_views w (.ok chain imgs) = some w' ∧
      w'.swap_chain = chain ∧
      w'.final_views = imgs ∧
      w'.recreate_swapchain = false ∧
      w'.graphics_queue = w.graphics_queue ∧
      w'.previous_frame_end = w.previous_frame_end ∧
      w'.image_index = w.image_index ∧
      ∀ k, lookupKV w'.image_views k =
        (lookupKV w.image_views k).map (fun p => if p.2 then (create_device_image w.graphics_queue i0.size p.1.format, true) else p) := by
  have hsz : final_image_size? { w with swap_chain := chain, final_views := imgs } = some i0.size := by
    simp [final_image_size?, himgs]
  have hndks := nodup_follow_keys w.image_views hnd
  have hmem : ∀ k ∈ (w.image_views.filter (fun c => c.2.2)).map Prod.fst,
      (lookupKV ({ w with swap_chain := chain, final_views := imgs } : VulkanoWinitWindow).image_views k).isSome = true := by
    intro k hk
    exact lookupKV_isSome_of_mem_keys _ _
      (mem_keys_of_mem_follow_keys _ _ hk)
  obtain ⟨w2, hf, hchar⟩ := foldlM_recreateStep_lookup i0.size
    ((w.image_views.filter (fun c => c.2.2)).map Prod.fst)
    { w with swap_chain := chain, final_views := imgs } hsz hndks hmem
  obtain ⟨q2, s2, f2, r2, p2, i2⟩ := foldlM_recreateStep_fields _ _ _ hf
  refine ⟨{ w2 with recreate_swapchain := false }, ?_, s2, f2, rfl, q2, p2, i2, ?_⟩
  · rw [recreate_swapchain_and_views_ok_eq, hf]
    rfl
  · intro k
    have hch := hchar k
    show lookupKV w2.image_views k = _
    rw [hch]
    cases hl : lookupKV w.image_views k with
    | none =>
      have hnk : k ∉ (w.image_views.filter (fun c => c.2.2)).map Prod.fst := by
        intro hk
        have := hmem k hk
        show False
        rw [show (({ w with swap_chain := chain, final_views := imgs } : VulkanoWinitWindow).image_views) = w.image_views from rfl, hl] at this
        exact Bool.noConfusion this
      rw [if_neg hnk]
      rfl
    | some p =>
      obtain ⟨img, bfl⟩ := p
      cases bfl with
      | true =>
        have hin : k ∈ (w.image_views.filter (fun c => c.2.2)).map Prod.fst :=
          mem_follow_keys_of_lookupKV _ _ _ hl
        rw [if_pos hin]
        rfl
      | false =>
        have hnk : k ∉ (w.image_views.filter (fun c => c.2.2)).map Prod.fst :=
          not_mem_follow_keys_of_lookupKV_false _ _ _ hnd hl
        rw [if_neg hnk]
        rfl

/-! ## Case computation lemmas for `start_frame` -/

theorem start_frame_ok_eq (w w1 : VulkanoWinitWindow)
    (b : SwapchainBuildResult) (f : GpuFuture) (i : Nat) (sub : Bool)
    (h1 : (if w.recreate_swapchain then recreate_swapchain_and_views w b else some w) = some w1)
    (h2 : w1.previous_frame_end = some f) :
    start_frame w b (.ok i sub) = .ok { w1 with recreate_swapchain := sub || w1.recreate_swapchain, image_index := i, previous_frame_end := none } (GpuFuture.join f (GpuFuture.acquire i)) := by
  cases sub <;> simp [start_frame, h1, h2]

theorem start_frame_outOfDate_eq (w w1 : VulkanoWinitWindow)
    (b : SwapchainBuildResult)
    (h1 : (if w.recreate_swapchain then recreate_swapchain_and_views w b else some w) = some w1) :
    start_frame w b .outOfDate = .err { w1 with recreate_swapchain := true } .outOfDate := by
  simp [start_frame, h1]

theorem start_frame_otherError_panic (w w1 : VulkanoWinitWindow)
    (b : SwapchainBuildResult)
    (h1 : (if w.recreate_swapchain then recreate_swapchain_and_views w b else some w) = some w1) :
    start_frame w b .otherError = .panic := by
  simp [start_frame, h1]

theorem start_frame_recreate_panic (w : VulkanoWinitWindow)
    (b : SwapchainBuildResult) (a : AcquireResult)
    (hflag : w.recreate_swapchain = true)
    (hr : recreate_swapchain_and_views w b = none) :
    start_frame w b a = .panic := by
  simp [start_frame, hflag, hr]

theorem start_frame_prev_none_panic (w w1 : VulkanoWinitWindow)
    (b : SwapchainBuildResult) (i : Nat) (sub : Bool)
    (h1 : (if w.recreate_swapchain then recreate_swapchain_and_views w b else some w) = some w1)
    (h2 : w1.previous_frame_end = none) :
    start_frame w b (.ok i sub) = .panic := by
  cases sub <;> simp [start_frame, h1, h2]

theorem start_frame_prev_of_pre (w w1 : VulkanoWinitWindow)
    (b : SwapchainBuildResult)
    (h1 : (if w.recreate_swapchain then recreate_swapchain_and_views w b else some w) = some w1) :
    w1.previous_frame_end = w.previous_frame_end := by
  by_cases hf : w.recreate_swapchain
  · rw [if_pos hf] at h1
    exact (recreate_swapchain_and_views_fields w w1 b h1).2.1
  · rw [if_neg hf] at h1
    have hw := Option.some.inj h1
    rw [← hw]

theorem start_frame_err_prev (w w' : VulkanoWinitWindow)
    (b : SwapchainBuildResult) (a : AcquireResult) (e : AcquireError)
    (h : start_frame w b a = .err w' e) :
    w'.previous_frame_end = w.previous_frame_end := by
  cases hiw : (if w.recreate_swapchain then recreate_swapchain_and_views w b else some w) with
  | none =>
    have hp : start_frame w b a = .panic := by
      unfold start_frame
      rw [hiw]
    rw [hp] at h
    exact StartFrameResult.noConfusion h
  | some w1 =>
    have hw1 : w1.previous_frame_end = w.previous_frame_end :=
      start_frame_prev_of_pre w w1 b hiw
    cases a with
    | outOfDate =>
      rw [start_frame_outOfDate_eq w w1 b hiw] at h
      injection h with h1 h2
      rw [← h1]
      exact hw1
    | otherError =>
      rw [start_frame_otherError_panic w w1 b hiw] at h
      exact StartFrameResult.noConfusion h
    | ok i sub =>
      cases hw : w1.previous_frame_end with
      | none =>
        rw [start_frame_prev_none_panic w w1 b i sub hiw hw] at h
        exact StartFrameResult.noConfusion h
      | some f =>
        rw [start_frame_ok_eq w w1 b f i sub hiw hw] at h
        exact StartFrameResult.noConfusion h

theorem start_frame_ok_prev_none (w w' : VulkanoWinitWindow)
    (b : SwapchainBuildResult) (a : AcquireResult) (fut : GpuFuture)
    (h : start_frame w b a = .ok w' fut) :
    w'.previous_frame_end = none := by
  cases hiw : (if w.recreate_swapchain then recreate_swapchain_and_views w b else some w) with
  | none =>
    have hp : start_frame w b a = .panic := by
      unfold start_frame
      rw [hiw]
    rw [hp] at h
    exact StartFrameResult.noConfusion h
  | some w1 =>
    cases a with
    | outOfDate =>
      rw [start_frame_outOfDate_eq w w1 b hiw] at h
      exact StartFrameResult.noConfusion h
    | otherError =>
      rw [start_frame_otherError_panic w w1 b hiw] at h
      exact StartFrameResult.noConfusion h
    | ok i sub =>
      cases hw : w1.previous_frame_end with
      | none =>
        rw [start_frame_prev_none_panic w w1 b i sub hiw hw] at h
        exact StartFrameResult.noConfusion h
      | some f =>
        rw [start_frame_ok_eq w w1 b f i sub hiw hw] at h
        injection h with h1 h2
        rw [← h1]

theorem prev_none_start_panics (v : VulkanoWinitWindow)
    (b : SwapchainBuildResult) (i : Nat) (sub : Bool)
    (hv : v.previous_frame_end = none) :
    start_frame v b (.ok i sub) = .panic := by
  cases hiw : (if v.recreate_swapchain then recreate_swapchain_and_views v b else some v) with
  | none =>
    unfold start_frame
    rw [hiw]
  | some w1 =>
    have hw1 : w1.previous_frame_end = none :=
      (start_frame_prev_of_pre v w1 b hiw).trans hv
    exact start_frame_prev_none_panic v w1 b i sub hiw hw1

theorem resize_resize (w : VulkanoWinitWindow) : resize (resize w) = resize w := rfl

theorem resize_iterate (w : VulkanoWinitWindow) :
    ∀ n : Nat, resize^[n + 1] w = resize w := by
  intro n
  induction n with
  | zero => rw [Function.iterate_one]
  | succ n ih =>
    rw [Function.iterate_succ_apply', ih]
    exact resize_resize w

theorem finish_frame_prev_isSome (w : VulkanoWinitWindow) (fut : GpuFuture)
    (fl : FlushResult) :
    ((finish_frame w fut fl).previous_frame_end).isSome = true := by
  cases fl <;> rfl

theorem recreate_swapchain_and_views_ok_fields (w w' : VulkanoWinitWindow)
    (chain : Nat) (imgs : List FinalImageView)
    (h : recreate_swapchain_and_views w (.ok chain imgs) = some w') :
    w'.recreate_swapchain = false ∧ w'.swap_chain = chain ∧
    w'.final_views = imgs := by
  rw [recreate_swapchain_and_views_ok_eq] at h
  cases hf : ((w.image_views.filter (fun c => c.2.2)).map Prod.fst).foldlM
      recreateStep { w with swap_chain := chain, final_views := imgs } with
  | none => rw [hf] at h; exact Option.noConfusion h
  | some w2 =>
    rw [hf] at h
    have hw : ({ w2 with recreate_swapchain := false } :
        VulkanoWinitWindow) = w' := Option.some.inj h
    obtain ⟨q2, s2, f2, r2, p2, i2⟩ := foldlM_recreateStep_fields _ _ _ hf
    rw [← hw]
    exact ⟨rfl, s2, f2⟩

/-! ## Claim theorems -/

/-- C1: in every `start_frame` call in which image acquisition succeeds with
index `i` and suboptimality flag `sub` (and the session holds an in-flight
future `f`): if `needs_recreation` was set, swapchain recreation is performed
before acquisition (hypothesis `h1` is exactly the recreation step of the
code, and the result is built from its outcome `w1`); `current_image_index`
is set to `i`; and the call returns `Ok` with the join of the previous
in-flight future and the acquisition future. When the platform marks the
acquisition suboptimal (`sub = true`) the call still succeeds the same way
and the resulting `recreate_swapchain` flag is `true`, so recreation happens
at the next `start_frame`. -/
theorem c1_start_frame_success (w w1 : VulkanoWinitWindow)
    (b : SwapchainBuildResult) (f : GpuFuture) (i : Nat) (sub : Bool)
    (h1 : (if w.recreate_swapchain then recreate_swapchain_and_views w b else some w) = some w1)
    (h2 : w.previous_frame_end = some f) :
    start_frame w b (.ok i sub) = .ok { w1 with recreate_swapchain := sub || w1.recreate_swapchain, image_index := i, previous_frame_end := none } (GpuFuture.join f (GpuFuture.acquire i)) := by
  have h2' : w1.previous_frame_end = some f :=
    (start_frame_prev_of_pre w w1 b h1).trans h2
  exact start_frame_ok_eq w w1 b f i sub h1 h2'

/-- Witness for C1: a fresh session (no recreation pending), suboptimal
acquisition of image 0 succeeds, the in-flight future is joined with the
acquisition future, and `recreate_swapchain` is set for the next call. -/
theorem c1_witness :
    start_frame (VulkanoWinitWindow.new 0 0 [⟨(4, 4), 7⟩]) .unsupportedDimensions (.ok 0 true) = .ok { VulkanoWinitWindow.new 0 0 [⟨(4, 4), 7⟩] with recreate_swapchain := true, image_index := 0, previous_frame_end := none } (GpuFuture.join (GpuFuture.now 0) (GpuFuture.acquire 0)) :=
  c1_start_frame_success (VulkanoWinitWindow.new 0 0 [⟨(4, 4), 7⟩])
    (VulkanoWinitWindow.new 0 0 [⟨(4, 4), 7⟩]) .unsupportedDimensions
    (GpuFuture.now 0) 0 true (by decide) (by decide)

/-- C4: in every `finish_frame` call in which the flush reports out-of-date,
`needs_recreation` is set, the in-flight future is replaced with the trivial
already-resolved `sync::now(device)` future, and no error is propagated
(`finish_frame` is total and returns the updated session normally). -/
theorem c4_finish_frame_out_of_date (w : VulkanoWinitWindow)
    (fut : GpuFuture) :
    finish_frame w fut .outOfDate = { w with recreate_swapchain := true, previous_frame_end := some (GpuFuture.now w.graphics_queue) } := rfl

/-- C5: when recreation (triggered inside `start_frame` because
`needs_recreation` is set) hits the unsupported-dimensions build failure,
recreation is aborted with the whole session state (swapchain, image views,
auxiliary targets, and the still-set `needs_recreation` flag) unchanged and
the call continues without terminating the process (the frame proceeds on
the old swapchain and `recreate_swapchain` stays `true` so recreation is
retried later); any other swapchain-creation failure aborts the process. -/
theorem c5_unsupported_dimensions (w : VulkanoWinitWindow) (f : GpuFuture)
    (i : Nat) (sub : Bool) (a : AcquireResult)
    (hflag : w.recreate_swapchain = true)
    (hprev : w.previous_frame_end = some f) :
    recreate_swapchain_and_views w .unsupportedDimensions = some w ∧
    start_frame w .unsupportedDimensions (.ok i sub) = .ok { w with recreate_swapchain := true, image_index := i, previous_frame_end := none } (GpuFuture.join f (GpuFuture.acquire i)) ∧
    start_frame w .otherError a = .panic := by
  refine ⟨rfl, ?_, ?_⟩
  · have h1 : (if w.recreate_swapchain then recreate_swapchain_and_views w .unsupportedDimensions else some w) = some w := by
      rw [if_pos hflag]
      rfl
    have h := start_frame_ok_eq w w .unsupportedDimensions f i sub h1 hprev
    rw [hflag, Bool.or_true] at h
    exact h
  · exact start_frame_recreate_panic w .otherError a hflag rfl

/-- Witness for C5: a session with recreation pending hits the
unsupported-dimensions failure, the state is untouched, the frame proceeds
with the flag still set, and an other build error panics. -/
theorem c5_witness :
    recreate_swapchain_and_views { graphics_queue := 0, swap_chain := 0, final_views := [⟨(4, 4), 7⟩], image_views := [], recreate_swapchain := true, previous_frame_end := some (GpuFuture.now 0), image_index := 0 } .unsupportedDimensions = some { graphics_queue := 0, swap_chain := 0, final_views := [⟨(4, 4), 7⟩], image_views := [], recreate_swapchain := true, previous_frame_end := some (GpuFuture.now 0), image_index := 0 } ∧
    start_frame { graphics_queue := 0, swap_chain := 0, final_views := [⟨(4, 4), 7⟩], image_views := [], recreate_swapchain := true, previous_frame_end := some (GpuFuture.now 0), image_index := 0 } .unsupportedDimensions (.ok 2 false) = .ok { graphics_queue := 0, swap_chain := 0, final_views := [⟨(4, 4), 7⟩], image_views := [], recreate_swapchain := true, previous_frame_end := none, image_index := 2 } (GpuFuture.join (GpuFuture.now 0) (GpuFuture.acquire 2)) ∧
    start_frame { graphics_queue := 0, swap_chain := 0, final_views := [⟨(4, 4), 7⟩], image_views := [], recreate_swapchain := true, previous_frame_end := some (GpuFuture.now 0), image_index := 0 } .otherError .outOfDate = .panic :=
  c5_unsupported_dimensions _ (GpuFuture.now 0) 2 false .outOfDate (by decide)
    (by decide)

/-- C2 counterexample: the claim asserts that whenever acquisition fails
out-of-date, all session state other than `needs_recreation` is unchanged.
On a call entered with `needs_recreation` already set, recreation runs (and
replaces the swapchain and image views) before the failing acquisition: here
the swapchain handle changes from 0 to 1 and the image-view sequence changes
from a 4x4 view to an 8x8 view even though the call returns the
out-of-date error. -/
theorem c2_counterexample :
    start_frame { graphics_queue := 0, swap_chain := 0, final_views := [⟨(4, 4), 7⟩], image_views := [], recreate_swapchain := true, previous_frame_end := some (GpuFuture.now 0), image_index := 0 } (.ok 1 [⟨(8, 8), 7⟩]) .outOfDate = .err { graphics_queue := 0, swap_chain := 1, final_views := [⟨(8, 8), 7⟩], image_views := [], recreate_swapchain := true, previous_frame_end := some (GpuFuture.now 0), image_index := 0 } .outOfDate ∧
    (⟨(8, 8), 7⟩ : FinalImageView) ≠ ⟨(4, 4), 7⟩ := by
  exact ⟨by decide, by decide⟩

/-- C2 (amended): when no recreation is pending on entry, a `start_frame`
call whose acquisition fails out-of-date sets `needs_recreation`, returns
the recoverable out-of-date error, and changes nothing else (the result
state is literally the input with only the flag set, so the in-flight
future, `current_image_index`, swapchain, image views and auxiliary targets
are unchanged); and the next `start_frame` call first recreates the
swapchain before acquiring: on the error state, any successful recreation
outcome is installed (new swapchain handle and image views) even when that
next acquisition fails out-of-date again. When recreation was already
pending, the failing call still performs it first. -/
theorem c2_out_of_date (w : VulkanoWinitWindow) (b : SwapchainBuildResult)
    (hflag : w.recreate_swapchain = false) :
    start_frame w b .outOfDate = .err { w with recreate_swapchain := true } .outOfDate ∧
    (∀ (chain : Nat) (imgs : List FinalImageView) (w1 : VulkanoWinitWindow),
      recreate_swapchain_and_views { w with recreate_swapchain := true } (.ok chain imgs) = some w1 →
      start_frame { w with recreate_swapchain := true } (.ok chain imgs) .outOfDate = .err { w1 with recreate_swapchain := true } .outOfDate ∧
      w1.swap_chain = chain ∧ w1.final_views = imgs) := by
  constructor
  · have h1 : (if w.recreate_swapchain then recreate_swapchain_and_views w b else some w) = some w := by
      rw [if_neg (by simp [hflag])]
    exact start_frame_outOfDate_eq w w b h1
  · intro chain imgs w1 hr
    have h1 : (if ({ w with recreate_swapchain := true } : VulkanoWinitWindow).recreate_swapchain then recreate_swapchain_and_views { w with recreate_swapchain := true } (.ok chain imgs) else some { w with recreate_swapchain := true }) = some w1 := by
      rw [if_pos rfl]
      exact hr
    refine ⟨start_frame_outOfDate_eq _ w1 _ h1, ?_, ?_⟩
    · exact (recreate_swapchain_and_views_ok_fields _ w1 chain imgs hr).2.1
    · exact (recreate_swapchain_and_views_ok_fields _ w1 chain imgs hr).2.2

/-- Witness for C2 (amended): out-of-date acquisition on a fresh session
returns the error with only the flag set, and the follow-up call installs
the recreated swapchain before its own failing acquisition. -/
theorem c2_witness :
    start_frame (VulkanoWinitWindow.new 0 0 [⟨(4, 4), 7⟩]) .unsupportedDimensions .outOfDate = .err { VulkanoWinitWindow.new 0 0 [⟨(4, 4), 7⟩] with recreate_swapchain := true } .outOfDate ∧
    start_frame { VulkanoWinitWindow.new 0 0 [⟨(4, 4), 7⟩] with recreate_swapchain := true } (.ok 1 [⟨(8, 8), 7⟩]) .outOfDate = .err { graphics_queue := 0, swap_chain := 1, final_views := [⟨(8, 8), 7⟩], image_views := [], recreate_swapchain := true, previous_frame_end := some (GpuFuture.now 0), image_index := 0 } .outOfDate := by
  have h := c2_out_of_date (VulkanoWinitWindow.new 0 0 [⟨(4, 4), 7⟩])
    .unsupportedDimensions (by decide)
  refine ⟨h.1, ?_⟩
  have h2 := h.2 1 [⟨(8, 8), 7⟩] { graphics_queue := 0, swap_chain := 1, final_views := [⟨(8, 8), 7⟩], image_views := [], recreate_swapchain := false, previous_frame_end := some (GpuFuture.now 0), image_index := 0 } (by decide)
  exact h2.1

/-- C6: `resize()` only sets the `needs_recreation` flag (the result state
is the input with only that flag set), it is idempotent (n+1 calls equal one
call, so any following `start_frame` behaves identically), and the swapchain
is recreated exactly once at the next `start_frame`: a successful recreation
plus non-suboptimal acquisition leaves `recreate_swapchain = false`, and a
`start_frame` on a state with the flag clear performs no recreation at all
(its result does not depend on the build oracle). -/
theorem c6_resize_idempotent (w : VulkanoWinitWindow) :
    resize w = { w with recreate_swapchain := true } ∧
    (∀ n : Nat, resize^[n + 1] w = resize w) ∧
    (∀ (n : Nat) (b : SwapchainBuildResult) (a : AcquireResult), start_frame (resize^[n + 1] w) b a = start_frame (resize w) b a) ∧
    (∀ (chain : Nat) (imgs : List FinalImageView) (w1 : VulkanoWinitWindow) (f : GpuFuture) (i : Nat), recreate_swapchain_and_views (resize w) (.ok chain imgs) = some w1 → w.previous_frame_end = some f → start_frame (resize w) (.ok chain imgs) (.ok i false) = .ok { w1 with image_index := i, previous_frame_end := none } (GpuFuture.join f (GpuFuture.acquire i)) ∧ w1.recreate_swapchain = false) ∧
    (∀ (v : VulkanoWinitWindow) (b1 b2 : SwapchainBuildResult) (a : AcquireResult), v.recreate_swapchain = false → start_frame v b1 a = start_frame v b2 a) := by
  refine ⟨rfl, resize_iterate w, ?_, ?_, ?_⟩
  · intro n b a
    rw [resize_iterate w n]
  · intro chain imgs w1 f i hr hprev
    have hflagr : w1.recreate_swapchain = false :=
      (recreate_swapchain_and_views_ok_fields _ w1 chain imgs hr).1
    have h1 : (if (resize w).recreate_swapchain then recreate_swapchain_and_views (resize w) (.ok chain imgs) else some (resize w)) = some w1 := by
      have hc : (resize w).recreate_swapchain = true := rfl
      rw [if_pos hc]
      exact hr
    have hprev' : (resize w).previous_frame_end = some f := hprev
    have h := start_frame_ok_eq (resize w) w1 (.ok chain imgs) f i false h1
      ((start_frame_prev_of_pre (resize w) w1 _ h1).trans hprev')
    rw [Bool.false_or] at h
    exact ⟨h, hflagr⟩
  · intro v b1 b2 a hv
    unfold start_frame
    rw [if_neg (by simp [hv]), if_neg (by simp [hv])]

/-- Witness for C6: after one `resize()` on a fresh session, the next
`start_frame` recreates the swapchain exactly once and clears the flag. -/
theorem c6_witness :
    start_frame (resize (VulkanoWinitWindow.new 0 0 [⟨(4, 4), 7⟩])) (.ok 1 [⟨(8, 6), 7⟩]) (.ok 0 false) = .ok { graphics_queue := 0, swap_chain := 1, final_views := [⟨(8, 6), 7⟩], image_views := [], recreate_swapchain := false, previous_frame_end := none, image_index := 0 } (GpuFuture.join (GpuFuture.now 0) (GpuFuture.acquire 0)) := by
  have h := c6_resize_idempotent (VulkanoWinitWindow.new 0 0 [⟨(4, 4), 7⟩])
  exact (h.2.2.2.1 1 [⟨(8, 6), 7⟩] { graphics_queue := 0, swap_chain := 1, final_views := [⟨(8, 6), 7⟩], image_views := [], recreate_swapchain := false, previous_frame_end := some (GpuFuture.now 0), image_index := 0 } (GpuFuture.now 0) 0 (by decide) (by decide)).1

/-- C3: after a successful `resize()` followed by the next `start_frame`
whose swapchain recreation succeeds (build outcome `.ok chain imgs`, first
new image `i0`, map keys without duplicates as `HashMap` guarantees): every
auxiliary target flagged `follows_swapchain` is recreated with dimensions
exactly the new swapchain image dimensions `i0.size` and its original
format, and every target not flagged is completely unchanged; the image-view
sequence is the new one. -/
theorem c3_resize_follow_targets (w w' : VulkanoWinitWindow)
    (chain : Nat) (i0 : FinalImageView) (imgs : List FinalImageView)
    (i : Nat) (sub : Bool) (fut : GpuFuture)
    (himgs : imgs.head? = some i0)
    (hnd : (w.image_views.map Prod.fst).Nodup)
    (hrun : start_frame (resize w) (.ok chain imgs) (.ok i sub) = .ok w' fut) :
    w'.final_views = imgs ∧
    ∀ k, lookupKV w'.image_views k =
      (lookupKV w.image_views k).map (fun p => if p.2 then (create_device_image w.graphics_queue i0.size p.1.format, true) else p) := by
  obtain ⟨w1, hr, hchain, hviews, hflag1, hq, hp, hi, hchar⟩ :=
    recreate_swapchain_and_views_ok_spec (resize w) chain i0 imgs himgs hnd
  have h1 : (if (resize w).recreate_swapchain then recreate_swapchain_and_views (resize w) (.ok chain imgs) else some (resize w)) = some w1 := by
    have hc : (resize w).recreate_swapchain = true := rfl
    rw [if_pos hc]
    exact hr
  cases hpv : w1.previous_frame_end with
  | none =>
    rw [start_frame_prev_none_panic (resize w) w1 _ i sub h1 hpv] at hrun
    exact StartFrameResult.noConfusion hrun
  | some f =>
    rw [start_frame_ok_eq (resize w) w1 _ f i sub h1 hpv] at hrun
    injection hrun with hw hfut
    rw [← hw]
    exact ⟨hviews, fun k => hchar k⟩

/-- Witness for C3: a session with a swapchain-following 2x2 target (key 1,
format 5) and a fixed 9x9 target (key 2, format 6) is resized; after the
next `start_frame` with an 8x6 swapchain, the following target is 8x6 with
format 5 and the fixed target is unchanged. -/
theorem c3_witness :
    lookupKV ({ graphics_queue := 0, swap_chain := 1, final_views := [⟨(8, 6), 7⟩], image_views := [(1, ⟨(8, 6), 5⟩, true), (2, ⟨(9, 9), 6⟩, false)], recreate_swapchain := false, previous_frame_end := none, image_index := 0 } : VulkanoWinitWindow).image_views 1 = (lookupKV ([(1, ⟨(2, 2), 5⟩, true), (2, ⟨(9, 9), 6⟩, false)] : List (Nat × DeviceImageView × Bool)) 1).map (fun p => if p.2 then (create_device_image 0 (8, 6) p.1.format, true) else p) := by
  have h := c3_resize_follow_targets { graphics_queue := 0, swap_chain := 0, final_views := [⟨(4, 4), 7⟩], image_views := [(1, ⟨(2, 2), 5⟩, true), (2, ⟨(9, 9), 6⟩, false)], recreate_swapchain := false, previous_frame_end := some (GpuFuture.now 0), image_index := 0 } { graphics_queue := 0, swap_chain := 1, final_views := [⟨(8, 6), 7⟩], image_views := [(1, ⟨(8, 6), 5⟩, true), (2, ⟨(9, 9), 6⟩, false)], recreate_swapchain := false, previous_frame_end := none, image_index := 0 } 1 ⟨(8, 6), 7⟩ [⟨(8, 6), 7⟩] 0 false (GpuFuture.join (GpuFuture.now 0) (GpuFuture.acquire 0)) (by decide) (by decide) (by decide)
  exact h.2 1

/-- C7 counterexample: the claim asserts the image-view sequence length is
invariant across any `start_frame`/`finish_frame` sequence with no resize in
between. An out-of-date acquisition (no resize involved) schedules
recreation, and the recreated swapchain may come back with a different image
count: here a 2-image swapchain becomes a 1-image swapchain across two
`start_frame` calls with no resize. -/
theorem c7_counterexample :
    runEvents { graphics_queue := 0, swap_chain := 0, final_views := [⟨(4, 4), 7⟩, ⟨(4, 4), 7⟩], image_views := [], recreate_swapchain := false, previous_frame_end := some (GpuFuture.now 0), image_index := 0 } [FrameEvent.start .unsupportedDimensions .outOfDate, FrameEvent.start (.ok 1 [⟨(8, 8), 7⟩]) (.ok 0 false)] = some { graphics_queue := 0, swap_chain := 1, final_views := [⟨(8, 8), 7⟩], image_views := [], recreate_swapchain := false, previous_frame_end := none, image_index := 0 } ∧
    ([⟨(8, 8), 7⟩] : List FinalImageView).length ≠ ([⟨(4, 4), 7⟩, ⟨(4, 4), 7⟩] : List FinalImageView).length :=
  ⟨by decide, by decide⟩

/-- C7 (amended): for every sequence of `start_frame`/`finish_frame` calls
in which no recreation is triggered — no resize, the flag initially clear,
every acquisition succeeding non-suboptimally with a platform-valid index
(below the image count, as the Vulkan contract guarantees), and no flush
reporting out-of-date — the current image index stays a valid index into
the image-view sequence after every `start_frame`, and the sequence length
never changes (the invariant holds at every prefix of the run, hence after
each call). -/
theorem c7_no_recreation_invariant :
    ∀ (evs : List FrameEvent) (w w' : VulkanoWinitWindow),
    w.recreate_swapchain = false →
    w.image_index < w.final_views.length →
    (∀ e ∈ evs, goodEvent w.final_views.length e = true) →
    runEvents w evs = some w' →
    w'.final_views.length = w.final_views.length ∧
    w'.recreate_swapchain = false ∧
    w'.image_index < w.final_views.length := by
  intro evs
  induction evs with
  | nil =>
    intro w w' h1 h2 _ hrun
    have hw := Option.some.inj hrun
    rw [← hw]
    exact ⟨rfl, h1, h2⟩
  | cons e rest ih =>
    intro w w' h1 h2 hgood hrun
    cases e with
    | start b a =>
      have hrun2 : (match start_frame w b a with
        | .ok w2 _ => runEvents w2 rest
        | .err w2 _ => runEvents w2 rest
        | .panic => none) = some w' := hrun
      cases a with
      | outOfDate =>
        have hg := hgood _ (List.mem_cons_self _ _)
        simp [goodEvent] at hg
      | otherError =>
        have hg := hgood _ (List.mem_cons_self _ _)
        simp [goodEvent] at hg
      | ok i sub =>
        have hg := hgood _ (List.mem_cons_self _ _)
        simp [goodEvent] at hg
        obtain ⟨hiL, hsub⟩ := hg
        subst hsub
        have h1' : (if w.recreate_swapchain then recreate_swapchain_and_views w b else some w) = some w := by
          rw [if_neg (by simp [h1])]
        cases hpv : w.previous_frame_end with
        | none =>
          rw [start_frame_prev_none_panic w w b i false h1' hpv] at hrun2
          exact Option.noConfusion hrun2
        | some f =>
          rw [start_frame_ok_eq w w b f i false h1' hpv] at hrun2
          have hrun3 : runEvents { w with recreate_swapchain := false || w.recreate_swapchain, image_index := i, previous_frame_end := none } rest = some w' := hrun2
          have hflag2 : ({ w with recreate_swapchain := false || w.recreate_swapchain, image_index := i, previous_frame_end := none } : VulkanoWinitWindow).recreate_swapchain = false := by
            simp [h1]
          have hidx2 : ({ w with recreate_swapchain := false || w.recreate_swapchain, image_index := i, previous_frame_end := none } : VulkanoWinitWindow).image_index < ({ w with recreate_swapchain := false || w.recreate_swapchain, image_index := i, previous_frame_end := none } : VulkanoWinitWindow).final_views.length := hiL
          have hgood2 : ∀ e ∈ rest, goodEvent ({ w with recreate_swapchain := false || w.recreate_swapchain, image_index := i, previous_frame_end := none } : VulkanoWinitWindow).final_views.length e = true :=
            fun e he => hgood e (List.mem_cons_of_mem _ he)
          obtain ⟨hl, hf, hi'⟩ := ih _ w' hflag2 hidx2 hgood2 hrun3
          exact ⟨hl, hf, hi'⟩
    | finish fut fl =>
      have hg := hgood _ (List.mem_cons_self _ _)
      have hrun2 : runEvents (finish_frame w fut fl) rest = some w' := hrun
      cases fl with
      | outOfDate => simp [goodEvent] at hg
      | ok =>
        have hflag2 : (finish_frame w fut .ok).recreate_swapchain = false := h1
        have hidx2 : (finish_frame w fut .ok).image_index < (finish_frame w fut .ok).final_views.length := h2
        have hgood2 : ∀ e ∈ rest, goodEvent (finish_frame w fut .ok).final_views.length e = true :=
          fun e he => hgood e (List.mem_cons_of_mem _ he)
        exact ih (finish_frame w fut .ok) w' hflag2 hidx2 hgood2 hrun2
      | otherError =>
        have hflag2 : (finish_frame w fut .otherError).recreate_swapchain = false := h1
        have hidx2 : (finish_frame w fut .otherError).image_index < (finish_frame w fut .otherError).final_views.length := h2
        have hgood2 : ∀ e ∈ rest, goodEvent (finish_frame w fut .otherError).final_views.length e = true :=
          fun e he => hgood e (List.mem_cons_of_mem _ he)
        exact ih (finish_frame w fut .otherError) w' hflag2 hidx2 hgood2 hrun2

/-- Witness for C7 (amended): one full frame (acquire image 0 of a 1-image
swapchain, then a successful present) preserves the invariant. -/
theorem c7_witness :
    ({ graphics_queue := 0, swap_chain := 0, final_views := [⟨(4, 4), 7⟩], image_views := [], recreate_swapchain := false, previous_frame_end := some (GpuFuture.presentFence (GpuFuture.now 0) 0), image_index := 0 } : VulkanoWinitWindow).final_views.length = (VulkanoWinitWindow.new 0 0 [⟨(4, 4), 7⟩]).final_views.length ∧
    ({ graphics_queue := 0, swap_chain := 0, final_views := [⟨(4, 4), 7⟩], image_views := [], recreate_swapchain := false, previous_frame_end := some (GpuFuture.presentFence (GpuFuture.now 0) 0), image_index := 0 } : VulkanoWinitWindow).recreate_swapchain = false ∧
    ({ graphics_queue := 0, swap_chain := 0, final_views := [⟨(4, 4), 7⟩], image_views := [], recreate_swapchain := false, previous_frame_end := some (GpuFuture.presentFence (GpuFuture.now 0) 0), image_index := 0 } : VulkanoWinitWindow).image_index < (VulkanoWinitWindow.new 0 0 [⟨(4, 4), 7⟩]).final_views.length :=
  c7_no_recreation_invariant
    [FrameEvent.start .unsupportedDimensions (.ok 0 false), FrameEvent.finish (GpuFuture.now 0) .ok]
    (VulkanoWinitWindow.new 0 0 [⟨(4, 4), 7⟩]) _ (by decide) (by decide)
    (by decide) (by decide)

/-- C8: `add_image_target(k, None, F)` stores a swapchain-following target
whose size is the current final-image size `v0.size` and whose format is
`F`, overwriting any existing binding at `k`; an immediately following
`get_image_target(k)` returns exactly that image. `add_image_target` with
an explicit size `s` stores a not-following target of exactly size `s`. -/
theorem c8_add_image_target (w : VulkanoWinitWindow) (k : Nat) (F : Format)
    (v0 : FinalImageView) (s : Dims)
    (hv : w.final_views.head? = some v0) :
    add_image_target w k none F = some { w with image_views := insertKV w.image_views k (create_device_image w.graphics_queue v0.size F, true) } ∧
    get_image_target? { w with image_views := insertKV w.image_views k (create_device_image w.graphics_queue v0.size F, true) } k = some (create_device_image w.graphics_queue v0.size F) ∧
    (create_device_image w.graphics_queue v0.size F).format = F ∧
    (create_device_image w.graphics_queue v0.size F).size = v0.size ∧
    add_image_target w k (some s) F = some { w with image_views := insertKV w.image_views k (create_device_image w.graphics_queue s F, false) } := by
  refine ⟨?_, ?_, rfl, rfl, rfl⟩
  · simp [add_image_target, final_image_size?, hv]
  · show (lookupKV (insertKV w.image_views k (create_device_image w.graphics_queue v0.size F, true)) k).map (·.1) = _
    rw [lookupKV_insertKV_self]
    rfl

/-- Witness for C8: adding a swapchain-following target with key 3 and
format 9 to a fresh session with a 4x4 swapchain, then getting it back. -/
theorem c8_witness :
    add_image_target (VulkanoWinitWindow.new 0 0 [⟨(4, 4), 7⟩]) 3 none 9 = some { VulkanoWinitWindow.new 0 0 [⟨(4, 4), 7⟩] with image_views := [(3, ⟨(4, 4), 9⟩, true)] } ∧
    get_image_target? { VulkanoWinitWindow.new 0 0 [⟨(4, 4), 7⟩] with image_views := [(3, ⟨(4, 4), 9⟩, true)] } 3 = some ⟨(4, 4), 9⟩ := by
  have h := c8_add_image_target (VulkanoWinitWindow.new 0 0 [⟨(4, 4), 7⟩]) 3 9
    ⟨(4, 4), 7⟩ (5, 5) (by decide)
  exact ⟨h.1, h.2.1⟩

/-- C9: the in-flight future is never absent outside the frame handoff:
right after session creation it is the trivial now-future; when
`start_frame` returns the recoverable out-of-date error the future is
exactly what it was before the call; and every branch of `finish_frame`
(success, out-of-date, other flush error) stores a present future. -/
theorem c9_in_flight_future_invariant :
    (∀ (q c : Nat) (vs : List FinalImageView), (VulkanoWinitWindow.new q c vs).previous_frame_end = some (GpuFuture.now q)) ∧
    (∀ (w w' : VulkanoWinitWindow) (b : SwapchainBuildResult) (a : AcquireResult) (e : AcquireError), start_frame w b a = .err w' e → w'.previous_frame_end = w.previous_frame_end) ∧
    (∀ (w : VulkanoWinitWindow) (fut : GpuFuture) (fl : FlushResult), ((finish_frame w fut fl).previous_frame_end).isSome = true) :=
  ⟨fun _ _ _ => rfl, start_frame_err_prev, finish_frame_prev_isSome⟩

/-- Witness for C9 at concrete sessions: creation, an out-of-date
`start_frame`, and an out-of-date `finish_frame` all leave the in-flight
future present. -/
theorem c9_witness :
    (VulkanoWinitWindow.new 5 0 []).previous_frame_end = some (GpuFuture.now 5) ∧
    ({ VulkanoWinitWindow.new 0 0 [⟨(4, 4), 7⟩] with recreate_swapchain := true } : VulkanoWinitWindow).previous_frame_end = (VulkanoWinitWindow.new 0 0 [⟨(4, 4), 7⟩]).previous_frame_end ∧
    ((finish_frame (VulkanoWinitWindow.new 0 0 [⟨(4, 4), 7⟩]) (GpuFuture.now 0) .outOfDate).previous_frame_end).isSome = true := by
  have h := c9_in_flight_future_invariant
  refine ⟨h.1 5 0 [], ?_, h.2.2 (VulkanoWinitWindow.new 0 0 [⟨(4, 4), 7⟩]) (GpuFuture.now 0) .outOfDate⟩
  exact h.2.1 (VulkanoWinitWindow.new 0 0 [⟨(4, 4), 7⟩]) _ .unsupportedDimensions .outOfDate .outOfDate (by decide)

/-- C10 counterexample: the claim asserts a second `start_frame` without an
intervening `finish_frame` panics rather than returning an error. After a
successful `start_frame` (in-flight future taken, i.e. `None`), a second
call whose acquisition reports out-of-date returns the recoverable
`Err(OutOfDate)` before ever reaching the take-then-unwrap, so it does not
panic. -/
theorem c10_counterexample :
    start_frame (VulkanoWinitWindow.new 0 0 [⟨(4, 4), 7⟩]) .unsupportedDimensions (.ok 0 false) = .ok { VulkanoWinitWindow.new 0 0 [⟨(4, 4), 7⟩] with previous_frame_end := none } (GpuFuture.join (GpuFuture.now 0) (GpuFuture.acquire 0)) ∧
    start_frame { VulkanoWinitWindow.new 0 0 [⟨(4, 4), 7⟩] with previous_frame_end := none } .unsupportedDimensions .outOfDate = .err { VulkanoWinitWindow.new 0 0 [⟨(4, 4), 7⟩] with previous_frame_end := none, recreate_swapchain := true } .outOfDate :=
  ⟨by decide, by decide⟩

/-- C10 (amended): after every `Ok` return of `start_frame`, the stored
in-flight future is absent (`None`) until `finish_frame` restores one, and a
second `start_frame` without an intervening `finish_frame` panics on the
take-then-unwrap whenever its image acquisition succeeds (when the second
acquisition reports out-of-date, the call instead returns the recoverable
error before reaching the unwrap). -/
theorem c10_double_start_panics (w w' : VulkanoWinitWindow)
    (b : SwapchainBuildResult) (a : AcquireResult) (fut : GpuFuture)
    (h : start_frame w b a = .ok w' fut) :
    w'.previous_frame_end = none ∧
    ∀ (b' : SwapchainBuildResult) (i : Nat) (sub : Bool), start_frame w' b' (.ok i sub) = .panic := by
  have hn := start_frame_ok_prev_none w w' b a fut h
  exact ⟨hn, fun b' i sub => prev_none_start_panics w' b' i sub hn⟩

/-- Witness for C10 (amended): after a successful frame start on a fresh
session, the in-flight future is gone and a second start with a successful
acquisition panics. -/
theorem c10_witness :
    ({ VulkanoWinitWindow.new 0 0 [⟨(4, 4), 7⟩] with previous_frame_end := none } : VulkanoWinitWindow).previous_frame_end = none ∧
    start_frame { VulkanoWinitWindow.new 0 0 [⟨(4, 4), 7⟩] with previous_frame_end := none } .unsupportedDimensions (.ok 1 false) = .panic := by
  have h := c10_double_start_panics (VulkanoWinitWindow.new 0 0 [⟨(4, 4), 7⟩]) { VulkanoWinitWindow.new 0 0 [⟨(4, 4), 7⟩] with previous_frame_end := none } .unsupportedDimensions (.ok 0 false) (GpuFuture.join (GpuFuture.now 0) (GpuFuture.acquire 0)) (by decide)
  exact ⟨h.1, h.2 .unsupportedDimensions 1 false⟩
